import Mathlib

/-!
# Verification of the FlowSync EyeTrax service

Shallow embedding of `src/flowsync/python/eyetrax_service.py`
(`class EyeTraxService`): the service state, the command handlers, the
stdin/stdout protocol loop and the background tracking loop.

External collaborators (OpenCV camera, the eyetrax `GazeEstimator`, the
`KalmanSmoother`, the filesystem) are modelled as oracles: every call the
service makes into them is driven by an explicit environment value that
says how that call turns out.  Real-valued gaze coordinates are modelled
as integers; no verified property depends on their arithmetic.  Logging
to stderr and `time.sleep` are omitted: they do not touch service state
or stdout.
-/

namespace EyeTrax

/-- A scalar JSON value, used for the opaque `request_id` field of a
request (`cmd.get("request_id")` is echoed verbatim). -/
inductive JVal where
  | null
  | bool (b : Bool)
  | num (n : Int)
  | str (s : String)
deriving DecidableEq, Repr

/-- Opaque feature vector produced by `estimator.extract_features`. -/
structure Features where
  tag : Nat
deriving DecidableEq, Repr

/-- A 2D gaze point.  Python floats are modelled as integers. -/
structure Gaze where
  x : Int
  y : Int
deriving DecidableEq, Repr

/-- The `cv2.VideoCapture` handle held in `self.cap`: it exists and is
either opened or not (`isOpened`). -/
structure Camera where
  opened : Bool
deriving DecidableEq, Repr

/-- Handle to the external `KalmanSmoother` built by `make_kalman`; the
construction parameters are recorded, its internal filter state is
opaque to the service (the service only creates, keeps or discards it,
and `step` results are supplied by the environment). -/
structure KalmanSmoother where
  state_dim : Nat
  meas_dim : Nat
  dt : Rat
  process_var : Rat
  measurement_var : Rat
deriving DecidableEq, Repr

/-- `make_kalman(state_dim=4, meas_dim=2, dt=0.05, process_var=50.0,
measurement_var=10.0)` wrapped in a `KalmanSmoother`, as built in
`run_calibration` and `load_model`. -/
def make_kalman : KalmanSmoother :=
  { state_dim := 4, meas_dim := 2, dt := ⟨1, 20, by decide, by decide⟩,
    process_var := ⟨50, 1, by decide, by decide⟩,
    measurement_var := ⟨10, 1, by decide, by decide⟩ }

/-- The mutable fields of `EyeTraxService` (`__init__`). -/
structure ServiceState where
  cap : Option Camera
  is_tracking : Bool
  camera_id : Nat
  use_kalman : Bool
  smoother : Option KalmanSmoother
  model_name : String
  is_calibrated : Bool
deriving DecidableEq, Repr

/-- `EyeTraxService()` with the default arguments
(`model_name='ridge'`, `use_kalman=True`). -/
def initState : ServiceState :=
  { cap := none, is_tracking := false, camera_id := 0, use_kalman := true,
    smoother := none, model_name := "ridge", is_calibrated := false }

/-- A Python result dict as returned by the command handlers: each field
is a JSON key that is either absent (`none`) or present with a value.
`gaze`/`raw_gaze` carry `Option Gaze` so that a present-but-`null` key
(`some none`) is distinguished from an absent key (`none`). -/
structure RespDict where
  success : Option Bool
  error : Option String
  message : Option String
  gaze : Option (Option Gaze)
  blink : Option Bool
  no_face : Option Bool
  not_calibrated : Option Bool
  raw_gaze : Option (Option Gaze)
  path : Option String
  model : Option String
  kalman_enabled : Option Bool
  is_calibrated : Option Bool
deriving DecidableEq, Repr

/-- The dict with no keys. -/
def RespDict.empty : RespDict :=
  { success := none, error := none, message := none, gaze := none, blink := none,
    no_face := none, not_calibrated := none, raw_gaze := none, path := none,
    model := none, kalman_enabled := none, is_calibrated := none }

/-- Python truthiness of `d.get(key)` for a boolean-valued key:
a missing key gives `None`, which is falsy. -/
def truthyOpt : Option Bool → Bool
  | none => false
  | some b => b

/-- Outcome of the blocking external call
`run_9_point_calibration(self.estimator, camera_index=camera_id)`:
normal return, `KeyboardInterrupt`, or any other exception. -/
inductive CalibOutcome where
  | success
  | cancelled
  | failure (msg : String)
deriving DecidableEq, Repr

/-- Environment for one `get_gaze` call: how `cap.read()`,
`extract_features`, `predict` and `smoother.step` turn out.
`predict = none` means `estimator.predict` raised. -/
structure FrameEnv where
  read_ok : Bool
  features : Option Features
  blink : Bool
  predict : Option Gaze
  smoothed : Gaze
deriving DecidableEq, Repr

/-- Environment for one dispatched command: outcomes of every external
call the handlers can make. -/
structure CmdEnv where
  calib : CalibOutcome
  camera_opens : Bool
  frame : FrameEnv
  file_found : Bool
  load_err : Option String
  save_err : Option String
deriving DecidableEq, Repr

/-- A parsed JSON command object: `command`, `request_id`, and the
optional parameters the handlers read (`camera_id`, `filepath`).
`none` means the key is absent. -/
structure Cmd where
  command : Option String
  request_id : Option JVal
  camera_id : Option Nat
  filepath : Option String
deriving DecidableEq, Repr

/-- `EyeTraxService.run_calibration`: stores `camera_id`, then runs the
blocking external calibration; on success sets `is_calibrated` and (when
`use_kalman`) installs a fresh smoother. -/
def run_calibration (s : ServiceState) (cameraId : Nat) (out : CalibOutcome) :
    RespDict × ServiceState :=
  let s1 := { s with camera_id := cameraId }
  match out with
  | .success =>
    let s2 := { s1 with is_calibrated := true }
    let s3 := if s2.use_kalman then { s2 with smoother := some make_kalman } else s2
    ({ RespDict.empty with
        success := some true,
        message := some "Calibration completed successfully",
        model := some s.model_name,
        kalman_enabled := some s.use_kalman,
        is_calibrated := some true }, s3)
  | .cancelled =>
    ({ RespDict.empty with
        success := some false,
        error := some "Calibration cancelled by user" }, s1)
  | .failure msg =>
    ({ RespDict.empty with success := some false, error := some msg }, s1)

/-- `EyeTraxService.start_camera`: reuses an already-open capture,
otherwise (re)opens `cv2.VideoCapture(camera_id)`; `opens` says whether
that open succeeds.  The property-setting calls are no-ops here. -/
def start_camera (s : ServiceState) (opens : Bool) : RespDict × ServiceState :=
  match s.cap with
  | some c =>
    if c.opened then ({ RespDict.empty with success := some true }, s)
    else
      let s' := { s with cap := some { opened := opens } }
      if opens then ({ RespDict.empty with success := some true }, s')
      else ({ RespDict.empty with
          success := some false,
          error := some "Could not open camera" }, s')
  | none =>
    let s' := { s with cap := some { opened := opens } }
    if opens then ({ RespDict.empty with success := some true }, s')
    else ({ RespDict.empty with
        success := some false,
        error := some "Could not open camera" }, s')

/-- `EyeTraxService.start_tracking`.  The third component records
whether a new tracking worker thread was spawned
(`threading.Thread(...).start()`). -/
def start_tracking (s : ServiceState) (opens : Bool) :
    RespDict × ServiceState × Bool :=
  if s.is_calibrated = false then
    ({ RespDict.empty with
        success := some false,
        error := some "Must calibrate first. Run 'run_calibration' command." }, s, false)
  else if s.is_tracking then
    ({ RespDict.empty with
        success := some true,
        message := some "Already tracking" }, s, false)
  else
    let camRes := start_camera s opens
    if camRes.1.success = some true then
      ({ RespDict.empty with success := some true },
       { camRes.2 with is_tracking := true }, true)
    else
      (camRes.1, camRes.2, false)

/-- `EyeTraxService.stop_tracking`. -/
def stop_tracking (s : ServiceState) : RespDict × ServiceState :=
  ({ RespDict.empty with success := some true }, { s with is_tracking := false })

/-- `EyeTraxService.clear_calibration`. -/
def clear_calibration (s : ServiceState) : RespDict × ServiceState :=
  ({ RespDict.empty with success := some true },
   { s with is_calibrated := false, smoother := none })

/-- `EyeTraxService.save_model`; `saveErr` is the message of the
exception `estimator.save_model` raised, if any. -/
def save_model (s : ServiceState) (filepath : String) (saveErr : Option String) :
    RespDict × ServiceState :=
  if s.is_calibrated = false then
    ({ RespDict.empty with
        success := some false,
        error := some "No trained model to save" }, s)
  else
    match saveErr with
    | some msg => ({ RespDict.empty with success := some false, error := some msg }, s)
    | none => ({ RespDict.empty with success := some true, path := some filepath }, s)

/-- `EyeTraxService.load_model`; `fileFound` is `Path(filepath).exists()`
and `loadErr` the message of the exception `estimator.load_model`
raised, if any. -/
def load_model (s : ServiceState) (filepath : String) (fileFound : Bool)
    (loadErr : Option String) : RespDict × ServiceState :=
  if fileFound = false then
    ({ RespDict.empty with
        success := some false,
        error := some ("Model file not found: " ++ filepath) }, s)
  else
    match loadErr with
    | some msg => ({ RespDict.empty with success := some false, error := some msg }, s)
    | none =>
      let s1 := { s with is_calibrated := true }
      let s2 := if s1.use_kalman then { s1 with smoother := some make_kalman } else s1
      ({ RespDict.empty with
          success := some true, path := some filepath,
          message := some "Model loaded. Start tracking now!" }, s2)

/-- `EyeTraxService.get_gaze`: pure in the service state (the handler
assigns no `self` field); all effects come from the environment. -/
def get_gaze (s : ServiceState) (e : FrameEnv) : RespDict :=
  match s.cap with
  | none => { RespDict.empty with
      success := some false,
      error := some "Camera not initialized" }
  | some _ =>
    if e.read_ok = false then
      { RespDict.empty with
          success := some false,
          error := some "Could not read frame" }
    else
      match e.features with
      | none =>
        { RespDict.empty with
            success := some true, gaze := some none,
            blink := some false, no_face := some true }
      | some _ =>
        if e.blink then
          { RespDict.empty with
              success := some true, gaze := some none,
              blink := some true, no_face := some false }
        else if s.is_calibrated = false then
          { RespDict.empty with
              success := some true, gaze := some none,
              blink := some false, no_face := some false, not_calibrated := some true }
        else
          match e.predict with
          | none =>
            { RespDict.empty with
                success := some true, gaze := some none,
                blink := some false, no_face := some false, not_calibrated := some true }
          | some raw =>
            match s.smoother with
            | some _ =>
              { RespDict.empty with
                  success := some true,
                  gaze := some (some e.smoothed), blink := some false,
                  no_face := some false, raw_gaze := some (some raw) }
            | none =>
              { RespDict.empty with
                  success := some true,
                  gaze := some (some raw), blink := some false,
                  no_face := some false, raw_gaze := some none }

/-- Python rendering of `cmd.get("command")` inside the
f-string `"Unknown command: {command}"`. -/
def pyStrOfOpt : Option String → String
  | none => "None"
  | some c => c

/-- `EyeTraxService.handle_command`: the `if/elif` dispatch chain. -/
def handle_command (s : ServiceState) (cmd : Cmd) (env : CmdEnv) :
    RespDict × ServiceState :=
  if cmd.command = some "run_calibration" then
    run_calibration s (cmd.camera_id.getD 0) env.calib
  else if cmd.command = some "start_tracking" then
    ((start_tracking s env.camera_opens).1, (start_tracking s env.camera_opens).2.1)
  else if cmd.command = some "stop_tracking" then
    stop_tracking s
  else if cmd.command = some "clear_calibration" then
    clear_calibration s
  else if cmd.command = some "get_gaze" then
    (get_gaze s env.frame, s)
  else if cmd.command = some "save_model" then
    save_model s (cmd.filepath.getD "flowsync_gaze_model.pkl") env.save_err
  else if cmd.command = some "load_model" then
    load_model s (cmd.filepath.getD "flowsync_gaze_model.pkl") env.file_found env.load_err
  else if cmd.command = some "ping" then
    ({ RespDict.empty with success := some true, message := some "pong" }, s)
  else
    ({ RespDict.empty with
        success := some false,
        error := some ("Unknown command: " ++ pyStrOfOpt cmd.command) }, s)

/-- One line read from stdin by `EyeTraxService.run`, after
`line.strip()` and `json.loads`: blank, malformed JSON (with the decode
error message), or a parsed JSON command object.  A command line carries
the environment for the external calls its handling makes. -/
inductive InLine where
  | blank
  | malformed (msg : String)
  | cmd (c : Cmd) (env : CmdEnv)
deriving DecidableEq, Repr

/-- One JSON line written to stdout by the service.  `response` carries
the `request_id` value set by `run` (`none` is serialized as `null`; the
key is always present) and the handler's result dict; `errorEvent` is
the `{"type":"error", ...}` message for malformed input; `gazeUpdate`
is the `{"type":"gaze_update","data":...}` push event of the tracking
worker. -/
inductive OutMsg where
  | ready
  | response (request_id : Option JVal) (body : RespDict)
  | errorEvent (err : String)
  | gazeUpdate (data : RespDict)
deriving DecidableEq, Repr

/-- The body of the `for line in sys.stdin` loop of `EyeTraxService.run`:
skip blank lines, answer malformed JSON with an error event, otherwise
dispatch through `handle_command` and emit exactly one tagged response
with `request_id := cmd.get("request_id")`. -/
def runLoop (s : ServiceState) : List InLine → List OutMsg
  | [] => []
  | .blank :: rest => runLoop s rest
  | .malformed msg :: rest =>
    .errorEvent ("Invalid JSON: " ++ msg) :: runLoop s rest
  | .cmd c env :: rest =>
    .response c.request_id (handle_command s c env).1 ::
      runLoop (handle_command s c env).2 rest

/-- `EyeTraxService.run`: emits `{"type":"ready"}` once, then processes
stdin lines. -/
def run (s : ServiceState) (lines : List InLine) : List OutMsg :=
  .ready :: runLoop s lines

/-- Input for one iteration of the tracking loop: whether another thread
set `is_tracking` to `false` before this iteration's `while` check
(`stop_tracking` / worker cooperation), and the frame environment for
the iteration's `get_gaze` call. -/
structure LoopIn where
  interrupted : Bool
  frame : FrameEnv
deriving DecidableEq, Repr

/-- `EyeTraxService._tracking_loop`, observed over a finite trace of
per-iteration inputs (the real loop is unbounded; an exhausted input
list leaves the loop still running).  Carries `frame_count` and
`error_count` exactly as the Python locals; `max_consecutive_errors`
is 5.  Returns the final service state and the stdout events emitted. -/
def tracking_loop : ServiceState → Nat → Nat → List LoopIn → ServiceState × List OutMsg
  | s, _, _, [] => (s, [])
  | s, fc, ec, i :: rest =>
    let s0 := if i.interrupted then { s with is_tracking := false } else s
    if s0.is_tracking then
      if truthyOpt (get_gaze s0 i.frame).success = false then
        if 5 ≤ ec + 1 then ({ s0 with is_tracking := false }, [])
        else tracking_loop s0 (fc + 1) (ec + 1) rest
      else
        ((tracking_loop s0 (fc + 1) 0 rest).1,
         .gazeUpdate (get_gaze s0 i.frame) :: (tracking_loop s0 (fc + 1) 0 rest).2)
    else (s0, [])

/-- The states of the service reachable from `initState`: the initial
state, any command handled by the protocol engine, and the tracking
worker's only write to the shared state (setting `is_tracking := false`
on self-termination). -/
inductive Reachable : ServiceState → Prop where
  | init : Reachable initState
  | step {s : ServiceState} (cmd : Cmd) (env : CmdEnv) :
      Reachable s → Reachable (handle_command s cmd env).2
  | workerStop {s : ServiceState} :
      Reachable s → Reachable { s with is_tracking := false }

/-- The camera is open: `self.cap` is not `None` and `isOpened()`. -/
def cameraOpen (s : ServiceState) : Bool :=
  match s.cap with
  | some c => c.opened
  | none => false

/-- The `request_id` values of the `"response"`-typed messages in an
output trace, in emission order. -/
def responseIds : List OutMsg → List (Option JVal)
  | [] => []
  | .response rid _ :: rest => rid :: responseIds rest
  | .ready :: rest => responseIds rest
  | .errorEvent _ :: rest => responseIds rest
  | .gazeUpdate _ :: rest => responseIds rest

/-- The `request_id` values of the lines that parse as JSON commands,
in reading order (`cmd.get("request_id")`, `none` when absent). -/
def requestIds : List InLine → List (Option JVal)
  | [] => []
  | .cmd c _ :: rest => c.request_id :: requestIds rest
  | .blank :: rest => requestIds rest
  | .malformed _ :: rest => requestIds rest

/-! ## Concrete inputs used to exercise the model -/

/-- A frame on which every external call succeeds: the camera read
works, a face is visible, no blink, prediction and smoothing return
points. -/
def goodFrame : FrameEnv :=
  { read_ok := true, features := some { tag := 0 }, blink := false,
    predict := some { x := 3, y := 4 }, smoothed := { x := 5, y := 6 } }

/-- A frame whose camera read fails (`cap.read()` returns `ret = False`). -/
def failFrame : FrameEnv :=
  { read_ok := false, features := none, blink := false,
    predict := none, smoothed := { x := 0, y := 0 } }

/-- A frame with a visible face and no blink on which
`estimator.predict` raises. -/
def predFailFrame : FrameEnv :=
  { read_ok := true, features := some { tag := 1 }, blink := false,
    predict := none, smoothed := { x := 0, y := 0 } }

/-- An environment in which every external call succeeds. -/
def demoEnv : CmdEnv :=
  { calib := .success, camera_opens := true, frame := goodFrame,
    file_found := true, load_err := none, save_err := none }

/-- `{"command":"run_calibration"}`. -/
def calCmd : Cmd :=
  { command := some "run_calibration", request_id := none,
    camera_id := none, filepath := none }

/-- `{"command":"start_tracking"}`. -/
def startCmd : Cmd :=
  { command := some "start_tracking", request_id := none,
    camera_id := none, filepath := none }

/-- `{"command":"clear_calibration"}`. -/
def clearCmd : Cmd :=
  { command := some "clear_calibration", request_id := none,
    camera_id := none, filepath := none }

/-- `{"command":"train_model","request_id":3}`. -/
def trainCmd : Cmd :=
  { command := some "train_model", request_id := some (.num 3),
    camera_id := none, filepath := none }

/-- `{"command":"get_gaze"}`. -/
def gazeCmd : Cmd :=
  { command := some "get_gaze", request_id := none,
    camera_id := none, filepath := none }

/-- The state after a successful `run_calibration` from the initial
state: calibrated, smoother installed, camera still closed. -/
def calibratedState : ServiceState :=
  (handle_command initState calCmd demoEnv).2

/-- The state after `run_calibration` then a successful
`start_tracking`: calibrated, tracking, camera open. -/
def trackingState : ServiceState :=
  (handle_command calibratedState startCmd demoEnv).2

/-- The state after `run_calibration`, `start_tracking`,
`clear_calibration`. -/
def clearedState : ServiceState :=
  (handle_command trackingState clearCmd demoEnv).2

/-- A tracking-loop iteration input whose camera read fails. -/
def badIn : LoopIn := { interrupted := false, frame := failFrame }

/-- A tracking-loop iteration input on which everything succeeds. -/
def goodIn : LoopIn := { interrupted := false, frame := goodFrame }

/-! ## Helper lemmas -/

/-- `start_camera` never touches `is_tracking`. -/
theorem start_camera_is_tracking (s : ServiceState) (opens : Bool) :
    (start_camera s opens).2.is_tracking = s.is_tracking := by
  unfold start_camera
  cases s.cap with
  | none => by_cases h : opens = true <;> simp [h]
  | some c =>
    by_cases hc : c.opened = true <;> by_cases h : opens = true <;> simp [hc, h]

/-- `start_camera` never touches `is_calibrated`. -/
theorem start_camera_is_calibrated (s : ServiceState) (opens : Bool) :
    (start_camera s opens).2.is_calibrated = s.is_calibrated := by
  unfold start_camera
  cases s.cap with
  | none => by_cases h : opens = true <;> simp [h]
  | some c =>
    by_cases hc : c.opened = true <;> by_cases h : opens = true <;> simp [hc, h]

/-- When `start_camera` reports success the resulting camera is open. -/
theorem start_camera_success_open (s : ServiceState) (opens : Bool)
    (h : (start_camera s opens).1.success = some true) :
    cameraOpen (start_camera s opens).2 = true := by
  unfold start_camera at h ⊢
  cases hc : s.cap with
  | none =>
    rw [hc] at h
    by_cases ho : opens = true
    · simp [ho, cameraOpen]
    · simp [ho] at h
  | some c =>
    rw [hc] at h
    by_cases hco : c.opened = true
    · simp [hco, cameraOpen, hc]
    · by_cases ho : opens = true
      · simp [hco, ho, cameraOpen]
      · simp [hco, ho] at h

/-- `cameraOpen` only looks at the `cap` field. -/
theorem cameraOpen_eq_of_cap {s s' : ServiceState} (h : s'.cap = s.cap) :
    cameraOpen s' = cameraOpen s := by
  unfold cameraOpen
  rw [h]

/-- `run_calibration` never touches `is_tracking`. -/
theorem run_calibration_is_tracking (s : ServiceState) (cid : Nat) (out : CalibOutcome) :
    (run_calibration s cid out).2.is_tracking = s.is_tracking := by
  unfold run_calibration
  cases out with
  | success => by_cases h : s.use_kalman = true <;> simp [h]
  | cancelled => rfl
  | failure msg => rfl

/-- `run_calibration` never touches the camera handle. -/
theorem run_calibration_cap (s : ServiceState) (cid : Nat) (out : CalibOutcome) :
    (run_calibration s cid out).2.cap = s.cap := by
  unfold run_calibration
  cases out with
  | success => by_cases h : s.use_kalman = true <;> simp [h]
  | cancelled => rfl
  | failure msg => rfl

/-- `load_model` never touches `is_tracking`. -/
theorem load_model_is_tracking (s : ServiceState) (fp : String) (ff : Bool)
    (le : Option String) :
    (load_model s fp ff le).2.is_tracking = s.is_tracking := by
  unfold load_model
  by_cases hf : ff = false
  · simp [hf]
  · cases le with
    | some msg => simp [hf]
    | none => by_cases h : s.use_kalman = true <;> simp [hf, h]

/-- `load_model` never touches the camera handle. -/
theorem load_model_cap (s : ServiceState) (fp : String) (ff : Bool)
    (le : Option String) :
    (load_model s fp ff le).2.cap = s.cap := by
  unfold load_model
  by_cases hf : ff = false
  · simp [hf]
  · cases le with
    | some msg => simp [hf]
    | none => by_cases h : s.use_kalman = true <;> simp [hf, h]

/-- `save_model` never changes the service state. -/
theorem save_model_state (s : ServiceState) (fp : String) (se : Option String) :
    (save_model s fp se).2 = s := by
  unfold save_model
  by_cases hc : s.is_calibrated = false
  · simp [hc]
  · cases se <;> simp [hc]

/-- When the service is uncalibrated, `start_tracking` fails with the
state error and changes nothing. -/
theorem start_tracking_uncalibrated (s : ServiceState) (opens : Bool)
    (hc : s.is_calibrated = false) :
    start_tracking s opens =
      ({ RespDict.empty with
          success := some false,
          error := some "Must calibrate first. Run 'run_calibration' command." },
       s, false) := by
  unfold start_tracking
  simp [hc]

/-- When already tracking, `start_tracking` answers success and changes
nothing. -/
theorem start_tracking_already (s : ServiceState) (opens : Bool)
    (hc : ¬s.is_calibrated = false) (ht : s.is_tracking = true) :
    start_tracking s opens =
      ({ RespDict.empty with success := some true, message := some "Already tracking" },
       s, false) := by
  unfold start_tracking
  simp [hc, ht]

/-- In the fresh-start branch, when `start_camera` succeeds,
`start_tracking` raises the tracking flag and spawns the worker. -/
theorem start_tracking_fresh_success (s : ServiceState) (opens : Bool)
    (hc : ¬s.is_calibrated = false) (ht : ¬s.is_tracking = true)
    (hs : (start_camera s opens).1.success = some true) :
    start_tracking s opens =
      ({ RespDict.empty with success := some true },
       { (start_camera s opens).2 with is_tracking := true }, true) := by
  unfold start_tracking
  simp [hc, ht, hs]

/-- In the fresh-start branch, when `start_camera` fails,
`start_tracking` forwards the camera error without raising the tracking
flag or spawning a worker. -/
theorem start_tracking_fresh_fail (s : ServiceState) (opens : Bool)
    (hc : ¬s.is_calibrated = false) (ht : ¬s.is_tracking = true)
    (hs : ¬(start_camera s opens).1.success = some true) :
    start_tracking s opens =
      ((start_camera s opens).1, (start_camera s opens).2, false) := by
  unfold start_tracking
  simp [hc, ht, hs]

/-- `start_tracking` preserves "tracking implies the camera is open":
the tracking flag is only raised after `start_camera` reports success. -/
theorem start_tracking_preserves_open (s : ServiceState) (opens : Bool)
    (h : s.is_tracking = true → cameraOpen s = true) :
    (start_tracking s opens).2.1.is_tracking = true →
      cameraOpen (start_tracking s opens).2.1 = true := by
  by_cases hc : s.is_calibrated = false
  · rw [start_tracking_uncalibrated s opens hc]
    exact h
  · by_cases ht : s.is_tracking = true
    · rw [start_tracking_already s opens hc ht]
      exact h
    · by_cases hs : (start_camera s opens).1.success = some true
      · rw [start_tracking_fresh_success s opens hc ht hs]
        intro _
        rw [show cameraOpen { (start_camera s opens).2 with is_tracking := true } =
              cameraOpen (start_camera s opens).2 from rfl]
        exact start_camera_success_open s opens hs
      · rw [start_tracking_fresh_fail s opens hc ht hs]
        intro hh
        rw [start_camera_is_tracking] at hh
        exact absurd hh ht

/-- Every command handler preserves "tracking implies the camera is
open". -/
theorem handle_command_preserves_open (s : ServiceState) (cmd : Cmd) (env : CmdEnv)
    (h : s.is_tracking = true → cameraOpen s = true) :
    (handle_command s cmd env).2.is_tracking = true →
      cameraOpen (handle_command s cmd env).2 = true := by
  unfold handle_command
  split_ifs with h1 h2 h3 h4 h5 h6 h7 h8
  · intro ht
    rw [run_calibration_is_tracking] at ht
    rw [cameraOpen_eq_of_cap (run_calibration_cap s (cmd.camera_id.getD 0) env.calib)]
    exact h ht
  · exact start_tracking_preserves_open s env.camera_opens h
  · intro ht
    simp [stop_tracking] at ht
  · exact h
  · exact h
  · intro ht
    rw [save_model_state] at ht
    rw [cameraOpen_eq_of_cap (by rw [save_model_state])]
    exact h ht
  · intro ht
    rw [load_model_is_tracking] at ht
    rw [cameraOpen_eq_of_cap (load_model_cap s (cmd.filepath.getD "flowsync_gaze_model.pkl")
          env.file_found env.load_err)]
    exact h ht
  · exact h
  · exact h

/-- A loop iteration that begins after another thread cleared the
tracking flag exits at the `while` check without emitting anything. -/
theorem tracking_loop_interrupted (s : ServiceState) (fc ec : Nat) (i : LoopIn)
    (rest : List LoopIn) (hi : i.interrupted = true) :
    tracking_loop s fc ec (i :: rest) = ({ s with is_tracking := false }, []) := by
  unfold tracking_loop
  simp [hi]

/-- A loop iteration that begins with the tracking flag already `false`
exits at the `while` check without emitting anything. -/
theorem tracking_loop_not_tracking (s : ServiceState) (fc ec : Nat) (i : LoopIn)
    (rest : List LoopIn) (hi : i.interrupted = false) (hs : s.is_tracking = false) :
    tracking_loop s fc ec (i :: rest) = (s, []) := by
  unfold tracking_loop
  simp [hi, hs]

/-- A failing sample that brings the consecutive-error count to the
threshold makes the worker clear the tracking flag and exit, ignoring
all further frames. -/
theorem tracking_loop_fail_stop (s : ServiceState) (fc ec : Nat) (i : LoopIn)
    (rest : List LoopIn) (hi : i.interrupted = false) (hs : s.is_tracking = true)
    (hf : truthyOpt (get_gaze s i.frame).success = false) (he : 5 ≤ ec + 1) :
    tracking_loop s fc ec (i :: rest) = ({ s with is_tracking := false }, []) := by
  unfold tracking_loop
  simp [hi, hs, hf, he]

/-- A failing sample below the threshold emits nothing and continues
with the error count incremented. -/
theorem tracking_loop_fail_cont (s : ServiceState) (fc ec : Nat) (i : LoopIn)
    (rest : List LoopIn) (hi : i.interrupted = false) (hs : s.is_tracking = true)
    (hf : truthyOpt (get_gaze s i.frame).success = false) (he : ¬5 ≤ ec + 1) :
    tracking_loop s fc ec (i :: rest) = tracking_loop s (fc + 1) (ec + 1) rest := by
  conv_lhs => unfold tracking_loop
  simp [hi, hs, hf, he]

/-- A successful sample emits exactly one `gaze_update` wrapping its
`get_gaze` result and continues with the error count reset to 0. -/
theorem tracking_loop_success (s : ServiceState) (fc ec : Nat) (i : LoopIn)
    (rest : List LoopIn) (hi : i.interrupted = false) (hs : s.is_tracking = true)
    (hf : truthyOpt (get_gaze s i.frame).success = true) :
    tracking_loop s fc ec (i :: rest) =
      ((tracking_loop s (fc + 1) 0 rest).1,
       .gazeUpdate (get_gaze s i.frame) :: (tracking_loop s (fc + 1) 0 rest).2) := by
  conv_lhs => unfold tracking_loop
  simp [hi, hs, hf]

/-! ## Claims -/

/-- C1 counterexample: in the reachable state reached by a successful
`run_calibration` followed by a successful `start_tracking`, tracking is
active, yet after `clear_calibration` the tracking flag is still `true`
— `clear_calibration` does not stop tracking, contrary to the claim. -/
theorem C1_clear_calibration_counterexample :
    trackingState.is_tracking = true ∧
    (clear_calibration trackingState).2.is_tracking = true := by
  decide

/-- C1 (amended): `clear_calibration`, from any state, reports success,
sets the calibrated flag to `false` and discards the smoothing-filter
state, but leaves every other field — in particular the tracking flag
and the camera handle — unchanged: tracking is not stopped. -/
theorem C1_clear_calibration_amended (s : ServiceState) :
    clear_calibration s =
      ({ RespDict.empty with success := some true },
       { s with is_calibrated := false, smoother := none }) := rfl

/-- C2 counterexample: the state reached from the initial state by the
command sequence `run_calibration` (successful), `start_tracking`
(successful), `clear_calibration` is reachable and has
`is_tracking = true` with `is_calibrated = false`, violating the claimed
invariant. -/
theorem C2_invariant_counterexample :
    Reachable clearedState ∧
    clearedState.is_tracking = true ∧
    clearedState.is_calibrated = false := by
  refine ⟨?_, by decide, by decide⟩
  exact Reachable.step clearCmd demoEnv
    (Reachable.step startCmd demoEnv
      (Reachable.step calCmd demoEnv Reachable.init))

/-- C2 (amended): in every reachable state, `is_tracking = true` implies
the camera is open, and every command handler preserves this; the other
half of the claimed invariant, `is_tracking = true` implies
`is_calibrated = true`, is not preserved by `clear_calibration`. -/
theorem C2_tracking_implies_camera_open {s : ServiceState} (h : Reachable s) :
    s.is_tracking = true → cameraOpen s = true := by
  induction h with
  | init =>
    intro ht
    exact absurd ht (by decide)
  | step cmd env _ ih =>
    exact handle_command_preserves_open _ cmd env ih
  | workerStop _ _ =>
    intro ht
    simp at ht

/-- C2 witness: the amended invariant applied to the concrete reachable
tracking state. -/
theorem C2_tracking_implies_camera_open_witness :
    cameraOpen trackingState = true :=
  C2_tracking_implies_camera_open
    (Reachable.step startCmd demoEnv
      (Reachable.step calCmd demoEnv Reachable.init))
    (by decide)

/-- C3 counterexample: a `get_gaze` command in the initial state — before
any calibration — with a frame available whose face is visible and not
blinking, returns `success:false` with error `"Camera not initialized"`
and no `not_calibrated` key: the camera is only opened by
`start_tracking`, so the claimed
`success:true, gaze:null, not_calibrated:true` response is not produced. -/
theorem C3_get_gaze_uncalibrated_counterexample :
    (handle_command initState gazeCmd demoEnv).1.success = some false ∧
    (handle_command initState gazeCmd demoEnv).1.error = some "Camera not initialized" ∧
    (handle_command initState gazeCmd demoEnv).1.not_calibrated = none ∧
    demoEnv.frame.features = some { tag := 0 } ∧
    demoEnv.frame.blink = false := by
  decide

/-- C3 (amended): a `get_gaze` issued before any calibration (initial
state) returns `success:false` with error `"Camera not initialized"`,
because the camera has not been opened; when the camera handle exists,
the frame read succeeds, a face is visible and there is no blink, a
`get_gaze` issued while uncalibrated returns `success:true, gaze:null,
not_calibrated:true` without attempting prediction. -/
theorem C3_get_gaze_uncalibrated_amended :
    (∀ e : FrameEnv,
        get_gaze initState e =
          { RespDict.empty with
              success := some false, error := some "Camera not initialized" }) ∧
    (∀ (s : ServiceState) (e : FrameEnv) (c : Camera) (f : Features),
        s.cap = some c → e.read_ok = true → e.features = some f →
        e.blink = false → s.is_calibrated = false →
        get_gaze s e =
          { RespDict.empty with
              success := some true, gaze := some none, blink := some false,
              no_face := some false, not_calibrated := some true }) := by
  constructor
  · intro e
    rfl
  · intro s e c f hcap hread hfeat hblink hcal
    unfold get_gaze
    rw [hcap, hread, hfeat, hblink, hcal]
    simp

/-- C3 witness: the amended claim applied in the initial state and in
the reachable uncalibrated-with-open-camera state after
`clear_calibration`. -/
theorem C3_get_gaze_uncalibrated_witness :
    get_gaze initState goodFrame =
      { RespDict.empty with
          success := some false, error := some "Camera not initialized" } ∧
    get_gaze clearedState goodFrame =
      { RespDict.empty with
          success := some true, gaze := some none, blink := some false,
          no_face := some false, not_calibrated := some true } :=
  ⟨C3_get_gaze_uncalibrated_amended.1 goodFrame,
   C3_get_gaze_uncalibrated_amended.2 clearedState goodFrame
     { opened := true } { tag := 0 } rfl rfl rfl rfl rfl⟩

/-- C4 counterexample: `train_model` is not a command the dispatch chain
knows: at the initial state (which has accumulated no calibration
samples) it returns `success:false` with error
`"Unknown command: train_model"` — not an `InsufficientSamples` reason —
and leaves the state unchanged. -/
theorem C4_train_model_counterexample :
    (handle_command initState trainCmd demoEnv).1.success = some false ∧
    (handle_command initState trainCmd demoEnv).1.error =
      some "Unknown command: train_model" ∧
    (handle_command initState trainCmd demoEnv).2 = initState := by
  decide

/-- C4 (amended): a `train_model` command, in any state and environment
and regardless of how many samples have been accumulated, returns
`success:false` with the error `"Unknown command: train_model"` (the
service does not implement `train_model`; calibration and training
happen inside the external `run_9_point_calibration`), and the service
state — in particular the calibrated flag — is unchanged. -/
theorem C4_train_model_amended (s : ServiceState) (env : CmdEnv)
    (rid : Option JVal) (cid : Option Nat) (fp : Option String) :
    handle_command s
        { command := some "train_model", request_id := rid,
          camera_id := cid, filepath := fp } env =
      ({ RespDict.empty with
          success := some false, error := some "Unknown command: train_model" },
       s) := rfl

/-- C5: while the calibrated flag is `false`, `start_tracking` returns
`success:false` with the state-error message, the state is returned
unchanged (so tracking is not raised and the camera handle is not
touched), and no worker thread is spawned. -/
theorem C5_start_tracking_not_calibrated (s : ServiceState) (opens : Bool)
    (h : s.is_calibrated = false) :
    start_tracking s opens =
      ({ RespDict.empty with
          success := some false,
          error := some "Must calibrate first. Run 'run_calibration' command." },
       s, false) :=
  start_tracking_uncalibrated s opens h

/-- C6: after a `start_tracking` that returned `success:true`, a second
`start_tracking` returns `success:true` with the "Already tracking"
message, spawns no second worker (third component `false`), and leaves
the service state exactly as it was after the first call. -/
theorem C6_start_tracking_idempotent (s : ServiceState) (o1 o2 : Bool)
    (h : (start_tracking s o1).1.success = some true) :
    start_tracking (start_tracking s o1).2.1 o2 =
      ({ RespDict.empty with success := some true, message := some "Already tracking" },
       (start_tracking s o1).2.1, false) := by
  by_cases hc : s.is_calibrated = false
  · rw [start_tracking_uncalibrated s o1 hc] at h
    simp [RespDict.empty] at h
  · by_cases ht : s.is_tracking = true
    · rw [start_tracking_already s o1 hc ht]
      exact start_tracking_already s o2 hc ht
    · by_cases hs : (start_camera s o1).1.success = some true
      · rw [start_tracking_fresh_success s o1 hc ht hs]
        apply start_tracking_already
        · intro hcal
          rw [show ({ (start_camera s o1).2 with is_tracking := true } :
                ServiceState).is_calibrated = (start_camera s o1).2.is_calibrated from rfl,
              start_camera_is_calibrated] at hcal
          exact hc hcal
        · rfl
      · rw [start_tracking_fresh_fail s o1 hc ht hs] at h
        exact absurd h hs

/-- C6 witness: the idempotence applied after the successful
`start_tracking` from the concrete calibrated state. -/
theorem C6_start_tracking_idempotent_witness :
    start_tracking (start_tracking calibratedState true).2.1 true =
      ({ RespDict.empty with success := some true, message := some "Already tracking" },
       (start_tracking calibratedState true).2.1, false) :=
  C6_start_tracking_idempotent calibratedState true true (by decide)

/-- C7: in the tracking loop, (1) a successful sample continues the loop
with the consecutive-error counter reset to 0, and (2) from a reset
counter, five consecutively failing samples make the worker clear the
tracking flag and exit the loop immediately at the fifth failure,
processing none of the remaining frames. -/
theorem C7_consecutive_error_stop :
    (∀ (s : ServiceState) (fc ec : Nat) (i : LoopIn) (rest : List LoopIn),
        s.is_tracking = true → i.interrupted = false →
        truthyOpt (get_gaze s i.frame).success = true →
        tracking_loop s fc ec (i :: rest) =
          ((tracking_loop s (fc + 1) 0 rest).1,
           .gazeUpdate (get_gaze s i.frame) :: (tracking_loop s (fc + 1) 0 rest).2)) ∧
    (∀ (s : ServiceState) (fc : Nat) (i1 i2 i3 i4 i5 : LoopIn) (rest : List LoopIn),
        s.is_tracking = true →
        (∀ i ∈ [i1, i2, i3, i4, i5], i.interrupted = false ∧
            truthyOpt (get_gaze s i.frame).success = false) →
        tracking_loop s fc 0 (i1 :: i2 :: i3 :: i4 :: i5 :: rest) =
          ({ s with is_tracking := false }, [])) := by
  constructor
  · intro s fc ec i rest hs hi hsucc
    exact tracking_loop_success s fc ec i rest hi hs hsucc
  · intro s fc i1 i2 i3 i4 i5 rest hs hall
    have h1 := hall i1 (by simp)
    have h2 := hall i2 (by simp)
    have h3 := hall i3 (by simp)
    have h4 := hall i4 (by simp)
    have h5 := hall i5 (by simp)
    rw [tracking_loop_fail_cont s fc 0 i1 _ h1.1 hs h1.2 (by decide),
        tracking_loop_fail_cont s (fc + 1) 1 i2 _ h2.1 hs h2.2 (by decide),
        tracking_loop_fail_cont s (fc + 2) 2 i3 _ h3.1 hs h3.2 (by decide),
        tracking_loop_fail_cont s (fc + 3) 3 i4 _ h4.1 hs h4.2 (by decide),
        tracking_loop_fail_stop s (fc + 4) 4 i5 _ h5.1 hs h5.2 (by decide)]

/-- C7 witness: both parts at the concrete tracking state — a
successful frame with the counter at 3, and five consecutive camera
read failures followed by a frame that is never processed. -/
theorem C7_consecutive_error_stop_witness :
    tracking_loop trackingState 0 3 [goodIn] =
      ((tracking_loop trackingState 1 0 []).1,
       .gazeUpdate (get_gaze trackingState goodFrame) ::
         (tracking_loop trackingState 1 0 []).2) ∧
    tracking_loop trackingState 7 0 [badIn, badIn, badIn, badIn, badIn, goodIn] =
      ({ trackingState with is_tracking := false }, []) :=
  ⟨C7_consecutive_error_stop.1 trackingState 0 3 goodIn [] (by decide) rfl (by decide),
   C7_consecutive_error_stop.2 trackingState 7 badIn badIn badIn badIn badIn [goodIn]
     (by decide) (by decide)⟩

/-- C8: the protocol engine emits, after the initial `ready` event,
exactly one `"response"`-typed message per line that parses as a JSON
command, in reading order, and the `request_id` field of the i-th
response is exactly the `request_id` of the i-th command (`none`,
serialized as JSON `null`, when the request carried none): the lists of
echoed ids coincide. -/
theorem C8_one_response_per_command (s : ServiceState) (lines : List InLine) :
    responseIds (run s lines) = requestIds lines := by
  show responseIds (runLoop s lines) = requestIds lines
  induction lines generalizing s with
  | nil => rfl
  | cons l rest ih =>
    cases l with
    | blank => simpa [runLoop, requestIds] using ih s
    | malformed msg => simpa [runLoop, responseIds, requestIds] using ih s
    | cmd c env => simpa [runLoop, responseIds, requestIds] using ih (handle_command s c env).2

/-- C9: when the service is calibrated but `estimator.predict` raises
during a `get_gaze` command (camera handle present, frame read, face
visible, no blink), the command still returns `success:true` with
`gaze:null` and `not_calibrated:true` — not an error response — and the
service state is unchanged. -/
theorem C9_predict_exception (s : ServiceState) (env : CmdEnv)
    (rid : Option JVal) (cid : Option Nat) (fp : Option String)
    (c : Camera) (f : Features)
    (hcap : s.cap = some c) (hread : env.frame.read_ok = true)
    (hfeat : env.frame.features = some f) (hblink : env.frame.blink = false)
    (hcal : s.is_calibrated = true) (hpred : env.frame.predict = none) :
    handle_command s
        { command := some "get_gaze", request_id := rid,
          camera_id := cid, filepath := fp } env =
      ({ RespDict.empty with
          success := some true, gaze := some none, blink := some false,
          no_face := some false, not_calibrated := some true }, s) := by
  have hd : handle_command s
      { command := some "get_gaze", request_id := rid,
        camera_id := cid, filepath := fp } env = (get_gaze s env.frame, s) := rfl
  rw [hd]
  unfold get_gaze
  rw [hcap, hread, hfeat, hblink]
  simp [hcal, hpred]

/-- C9 witness: prediction failure at the concrete tracking state. -/
theorem C9_predict_exception_witness :
    handle_command trackingState
        { command := some "get_gaze", request_id := some (.num 9),
          camera_id := none, filepath := none }
        { demoEnv with frame := predFailFrame } =
      ({ RespDict.empty with
          success := some true, gaze := some none, blink := some false,
          no_face := some false, not_calibrated := some true }, trackingState) :=
  C9_predict_exception trackingState { demoEnv with frame := predFailFrame }
    (some (.num 9)) none none { opened := true } { tag := 1 }
    rfl rfl rfl rfl rfl rfl

/-- C10: every event the tracking worker emits is a `gaze_update`
wrapping a `get_gaze` result whose `success` is truthy, over any trace;
and an iteration whose `get_gaze` result fails emits no event at all —
the emitted-event list is that of the remaining iterations (empty when
the failure reaches the threshold). -/
theorem C10_no_event_on_failure :
    (∀ (ins : List LoopIn) (s : ServiceState) (fc ec : Nat) (m : OutMsg),
        m ∈ (tracking_loop s fc ec ins).2 →
        ∃ r : RespDict, m = .gazeUpdate r ∧ truthyOpt r.success = true) ∧
    (∀ (s : ServiceState) (fc ec : Nat) (i : LoopIn) (rest : List LoopIn),
        s.is_tracking = true → i.interrupted = false →
        truthyOpt (get_gaze s i.frame).success = false →
        (tracking_loop s fc ec (i :: rest)).2 =
          (if 5 ≤ ec + 1 then [] else (tracking_loop s (fc + 1) (ec + 1) rest).2)) := by
  constructor
  · intro ins
    induction ins with
    | nil =>
      intro s fc ec m hm
      simp [tracking_loop] at hm
    | cons i rest ih =>
      intro s fc ec m hm
      by_cases hi : i.interrupted = true
      · rw [tracking_loop_interrupted s fc ec i rest hi] at hm
        simp at hm
      · rw [Bool.not_eq_true] at hi
        by_cases hs : s.is_tracking = true
        · by_cases hf : truthyOpt (get_gaze s i.frame).success = false
          · by_cases he : 5 ≤ ec + 1
            · rw [tracking_loop_fail_stop s fc ec i rest hi hs hf he] at hm
              simp at hm
            · rw [tracking_loop_fail_cont s fc ec i rest hi hs hf he] at hm
              exact ih s (fc + 1) (ec + 1) m hm
          · rw [Bool.not_eq_false] at hf
            rw [tracking_loop_success s fc ec i rest hi hs hf] at hm
            rcases List.mem_cons.mp hm with h | h
            · exact ⟨get_gaze s i.frame, h, hf⟩
            · exact ih s (fc + 1) 0 m h
        · rw [Bool.not_eq_true] at hs
          rw [tracking_loop_not_tracking s fc ec i rest hi hs] at hm
          simp at hm
  · intro s fc ec i rest hs hi hf
    by_cases he : 5 ≤ ec + 1
    · rw [tracking_loop_fail_stop s fc ec i rest hi hs hf he, if_pos he]
    · rw [tracking_loop_fail_cont s fc ec i rest hi hs hf he, if_neg he]

/-- C10 witness: the single event of a one-good-frame trace wraps a
successful result, and a failing first frame with the counter at 4
emits nothing. -/
theorem C10_no_event_on_failure_witness :
    (∃ r : RespDict, OutMsg.gazeUpdate (get_gaze trackingState goodFrame) =
        .gazeUpdate r ∧ truthyOpt r.success = true) ∧
    (tracking_loop trackingState 0 4 [badIn, goodIn]).2 =
      (if 5 ≤ 4 + 1 then [] else (tracking_loop trackingState 1 5 [goodIn]).2) :=
  ⟨C10_no_event_on_failure.1 [goodIn] trackingState 0 0
     (OutMsg.gazeUpdate (get_gaze trackingState goodFrame)) (by decide),
   C10_no_event_on_failure.2 trackingState 0 4 badIn [goodIn]
     (by decide) rfl (by decide)⟩

/-- C5 witness: `start_tracking` in the initial state. -/
theorem C5_start_tracking_not_calibrated_witness :
    start_tracking initState true =
      ({ RespDict.empty with
          success := some false,
          error := some "Must calibrate first. Run 'run_calibration' command." },
       initState, false) :=
  C5_start_tracking_not_calibrated initState true rfl

end EyeTrax
